import Mathlib

/-
Verification of the `maintainers` audit command against its specification.

The repository contains two variants of the same audit logic:
  * `src/unnamed/part_000`  (the name-filtered variant; embedded below as `V1`)
  * `src/cmd/audit.go`      (the unconditional variant; embedded below as `V2`)

Pure Go functions are embedded as Lean functions over an explicit data
model.  External collaborators (HTTP GET, the YAML owners-file parser,
file-existence checks and the `utils.Group.DirName`/`LabelName`
derivations, all of which live outside the audited source) are passed in
as oracle fields of an `Env` structure.  Diagnostic `fmt.Printf` calls are
embedded as constructors of a `Finding` inductive (one constructor per
printf site, carrying the formatted arguments); `render` reproduces the
exact printed bytes of a finding list.

Go's `http.Get` returns a nil response together with a non-nil error on a
transport failure; dereferencing that nil response panics.  We therefore
give the owners-file walk of `V1` the result type
`List Finding × Option String`: the findings printed before any panic,
paired with `some msg` when the code panics.
-/

/-- strContains hay needle is Go strings.Contains: true iff needle occurs
as a contiguous substring of hay (always true for the empty needle). -/
def strContains (hay needle : String) : Bool :=
  hay.toList.tails.any (fun t => needle.toList.isPrefixOf t)

/-- strHasSuffix s suf is Go strings.HasSuffix. -/
def strHasSuffix (s suf : String) : Bool :=
  suf.toList.isSuffixOf s.toList

/-- strStartsWith s pre is Go strings.HasPrefix, used for the charter-link
scheme test. -/
def strStartsWith (s p : String) : Bool :=
  p.toList.isPrefixOf s.toList

/-- consumeLit lit s consumes the literal lit from the front of s,
returning the rest, or none when s does not start with lit. -/
def consumeLit : List Char → List Char → Option (List Char)
  | [], s => some s
  | _ :: _, [] => none
  | c :: cs, d :: ds => if c = d then consumeLit cs ds else none

/-- segSplitAux scans for the first slash, returning the characters before
it and the rest after it. -/
def segSplitAux : List Char → Option (List Char × List Char)
  | [] => none
  | c :: cs =>
    if c = '/' then some ([], cs)
    else
      match segSplitAux cs with
      | none => none
      | some (seg, rest) => some (c :: seg, rest)

/-- segSplit s matches the regex fragment seg/ (one or more non-slash
characters followed by a slash): it returns the nonempty segment before
the first slash of s and the rest after that slash, or none when s starts
with a slash or contains none.  Because a character class excluding the
slash can never consume one, this deterministic split is exactly the set
of ways the fragment can match, so no backtracking is lost. -/
def segSplit : List Char → Option (List Char × List Char)
  | [] => none
  | c :: cs =>
    if c = '/' then none
    else
      match segSplitAux cs with
      | none => none
      | some (seg, rest) => some (c :: seg, rest)

/-- regexRawGitHubURL is the source pattern for raw-content owner URLs. -/
def regexRawGitHubURL : String :=
  "https://raw.githubusercontent.com/(?P<org>[^/]+)/(?P<repo>[^/]+)/(?P<branch>[^/]+)/(?P<path>.*)"

/-- regexGitHubURL is the source pattern for web-UI blob/tree owner URLs. -/
def regexGitHubURL : String :=
  "https://github.com/(?P<org>[^/]+)/(?P<repo>[^/]+)/(blob|tree)/(?P<branch>[^/]+)/(?P<path>.*)"

/-- rawGitHubMatchAt s decides whether regexRawGitHubURL matches at the
start of s: the literal host prefix, then three nonempty slash-free
segments each followed by a slash (org, repo, branch); the trailing
capture matches anything, including the empty string. -/
def rawGitHubMatchAt (s : List Char) : Bool :=
  match consumeLit "https://raw.githubusercontent.com/".toList s with
  | none => false
  | some r1 =>
    match segSplit r1 with
    | none => false
    | some (_, r2) =>
      match segSplit r2 with
      | none => false
      | some (_, r3) => (segSplit r3).isSome

/-- gitHubMatchAt s decides whether regexGitHubURL matches at the start of
s: the literal host prefix, org and repo segments, the literal
alternation blob/ or tree/, then the branch segment. -/
def gitHubMatchAt (s : List Char) : Bool :=
  match consumeLit "https://github.com/".toList s with
  | none => false
  | some r1 =>
    match segSplit r1 with
    | none => false
    | some (_, r2) =>
      match segSplit r2 with
      | none => false
      | some (_, r3) =>
        match consumeLit "blob/".toList r3 with
        | some r4 => (segSplit r4).isSome
        | none =>
          match consumeLit "tree/".toList r3 with
          | some r4 => (segSplit r4).isSome
          | none => false

/-- matchAnywhere m s is true when m accepts some suffix of s; this is the
unanchored search performed by Go regexp MatchString. -/
def matchAnywhere (m : List Char → Bool) : List Char → Bool
  | [] => m []
  | c :: cs => m (c :: cs) || matchAnywhere m cs

/-- reRawGitHubURL url is reRawGitHubURL.MatchString(url) of the source. -/
def reRawGitHubURL (url : String) : Bool :=
  matchAnywhere rawGitHubMatchAt url.toList

/-- reGitHubURL url is reGitHubURL.MatchString(url) of the source. -/
def reGitHubURL (url : String) : Bool :=
  matchAnywhere gitHubMatchAt url.toList

/-- rawGitHubCapAt s returns the org and repo captures of
regexRawGitHubURL when it matches at the start of s. -/
def rawGitHubCapAt (s : List Char) : Option (String × String) :=
  match consumeLit "https://raw.githubusercontent.com/".toList s with
  | none => none
  | some r1 =>
    match segSplit r1 with
    | none => none
    | some (org, r2) =>
      match segSplit r2 with
      | none => none
      | some (repo, r3) =>
        if (segSplit r3).isSome then some (String.mk org, String.mk repo) else none

/-- rawGitHubOrgRepoAux scans left to right for the first position where
regexRawGitHubURL matches and returns its org/repo captures. -/
def rawGitHubOrgRepoAux : List Char → Option (String × String)
  | [] => rawGitHubCapAt []
  | c :: cs =>
    match rawGitHubCapAt (c :: cs) with
    | some r => some r
    | none => rawGitHubOrgRepoAux cs

/-- rawGitHubOrgRepo url is the (org, repo) pair of the leftmost match of
the raw-content pattern in url, mirroring FindStringSubmatch captures. -/
def rawGitHubOrgRepo (url : String) : Option (String × String) :=
  rawGitHubOrgRepoAux url.toList

namespace Utils

/-- Person mirrors utils.Person (name, github handle, company). -/
structure Person where
  name : String
  github : String
  company : String
deriving DecidableEq

/-- Contact mirrors utils.Contact. -/
structure Contact where
  slack : String
  mailingList : String
  privateMailingList : String
  githubTeams : List String
  liaison : Option Person
deriving DecidableEq

/-- Leadership mirrors utils.Leadership: chairs, technical leads and
emeritus leads. -/
structure Leadership where
  chairs : List Person
  technicalLeads : List Person
  emeritusLeads : List Person
deriving DecidableEq

/-- Subproject mirrors utils.Subproject; only the length of the meetings
list is ever inspected, so meetings entries are kept abstract as strings. -/
structure Subproject where
  name : String
  description : String
  contact : Option Contact
  owners : List String
  meetings : List String
deriving DecidableEq

/-- Group mirrors utils.Group. -/
structure Group where
  dir : String
  name : String
  label : String
  missionStatement : String
  charterLink : String
  leadership : Leadership
  meetings : List String
  contact : Contact
  subprojects : List Subproject
  stakeholderSIGs : List String
deriving DecidableEq

/-- Context mirrors utils.Context: the four category collections. -/
structure Context where
  sigs : List Group
  userGroups : List Group
  workingGroups : List Group
  committees : List Group
deriving DecidableEq

/-- OwnersInfo mirrors utils.OwnersInfo as parsed from a fetched owners
file. -/
structure OwnersInfo where
  labels : List String
  approvers : List String
  reviewers : List String
  requiredReviewers : List String
deriving DecidableEq

end Utils

open Utils

/-- HTTPResponse models a non-nil *http.Response together with the result
of reading its body: statusCode is resp.StatusCode, body the bytes
returned by ioutil.ReadAll, and readErr the error of that read (the
source keeps the partial bytes and continues after reporting it). -/
structure HTTPResponse where
  statusCode : Nat
  body : String
  readErr : Option String

/-- Env bundles the external collaborators of the audit: fetch models
http.Get and client.Get (none is a transport error, in which case the Go
response pointer is nil); parseOwners models utils.GetOwnersInfoFromBytes;
fileNotExists path models errors.Is(os.Stat(path) error, os.ErrNotExist);
dirName and labelName model the utils.Group.DirName and
utils.Group.LabelName derivations; pwd models os.Getwd. -/
structure Env where
  fetch : String → Option HTTPResponse
  parseOwners : String → Except String OwnersInfo
  fileNotExists : String → Bool
  dirName : Group → String → String
  labelName : Group → String → String
  pwd : String

/-- pathJoin models path.Join for the two-component uses in the source. -/
def pathJoin (a b : String) : String :=
  a ++ "/" ++ b

/-- Sev is the severity of a printed finding line: the prefix of the line
(ERROR, WARNING, OPTIONAL) or info for the progress/header lines. -/
inductive Sev where
  | warning
  | error
  | optionalNote
  | info
deriving DecidableEq

namespace V1

/-- Finding enumerates the fmt.Printf diagnostic sites of
src/unnamed/part_000, one constructor per printf, carrying the formatted
arguments. -/
inductive Finding where
  | missingDirKey
  | missingNameKey
  | processingGroup (groupType dir name : String)
  | expectedDirErr (expected got : String)
  | expectedLabelErr (expected got : String)
  | missingMissionStatement
  | missingCharterLink
  | missingLabelKeys
  | missingMeetingsKey
  | missingSubprojectsKey
  | onlySigsCommittees (count : Nat)
  | processingSubproject (name dir : String)
  | missingDescriptionKey
  | missingContactKey
  | missingOwnersKey
  | processingOwners (dir name : String)
  | noOwnersSub (name : String)
  | ownerURLRegex (url : String)
  | readOwnersError (url err : String)
  | parseOwnersError (url err : String)
  | staleURL (url : String) (statusCode : Nat)
  | labelMismatch (label dir url : String)
  | noLabels (dir url : String)
  | aliasOwners (url : String)
  | missingSlack
  | missingMailingList
  | missingPrivateMailingList
  | missingTeams
  | unreachableCharter (link : String)
  | missingCharterFile (path : String)
  | missingStakeholderSigs
  | stakeholderNotFound (entry : String)
  | onlyWgStakeholders
  | missingChairs
  | considerMoreChairs
  | missingTechLeads
  | chairsAsTechLeads
  | personMissingName (extra : String)
  | personMissingGithub (extra name : String)
  | personMissingCompany (extra name : String)
deriving DecidableEq

/-- severity maps each printf site of part_000 to the prefix of the line
it prints. -/
def severity : Finding → Sev
  | .missingDirKey => .warning
  | .missingNameKey => .warning
  | .processingGroup _ _ _ => .info
  | .expectedDirErr _ _ => .error
  | .expectedLabelErr _ _ => .error
  | .missingMissionStatement => .error
  | .missingCharterLink => .error
  | .missingLabelKeys => .warning
  | .missingMeetingsKey => .warning
  | .missingSubprojectsKey => .warning
  | .onlySigsCommittees _ => .error
  | .processingSubproject _ _ => .info
  | .missingDescriptionKey => .warning
  | .missingContactKey => .warning
  | .missingOwnersKey => .error
  | .processingOwners _ _ => .info
  | .noOwnersSub _ => .error
  | .ownerURLRegex _ => .error
  | .readOwnersError _ _ => .error
  | .parseOwnersError _ _ => .error
  | .staleURL _ _ => .warning
  | .labelMismatch _ _ _ => .warning
  | .noLabels _ _ => .warning
  | .aliasOwners _ => .warning
  | .missingSlack => .warning
  | .missingMailingList => .warning
  | .missingPrivateMailingList => .optionalNote
  | .missingTeams => .optionalNote
  | .unreachableCharter _ => .warning
  | .missingCharterFile _ => .warning
  | .missingStakeholderSigs => .warning
  | .stakeholderNotFound _ => .warning
  | .onlyWgStakeholders => .error
  | .missingChairs => .warning
  | .considerMoreChairs => .warning
  | .missingTechLeads => .warning
  | .chairsAsTechLeads => .warning
  | .personMissingName _ => .warning
  | .personMissingGithub _ _ => .warning
  | .personMissingCompany _ _ => .optionalNote

/-- renderFinding reproduces the exact bytes printed by the corresponding
fmt.Printf of part_000 (the stale-url line prints the nil error through
the %s verb, which Go renders as %!s(<nil>)). -/
def renderFinding : Finding → String
  | .missingDirKey => "WARNING: missing \x27dir\x27 key\n"
  | .missingNameKey => "WARNING: missing \x27name\x27 key\n"
  | .processingGroup gt dir name =>
      "\n>>>> Processing " ++ gt ++ " [" ++ dir ++ "/" ++ name ++ "]\n"
  | .expectedDirErr e g => "ERROR: expected dir: " ++ e ++ ", got: " ++ g ++ "\n"
  | .expectedLabelErr e g => "ERROR: expected label: " ++ e ++ ", got: " ++ g ++ "\n"
  | .missingMissionStatement => "ERROR: missing \x27mission_statement\x27 key\n"
  | .missingCharterLink => "ERROR: missing \x27charter_link\x27 key\n"
  | .missingLabelKeys => "WARNING: missing \x27label\x27 keys\n"
  | .missingMeetingsKey => "WARNING: missing \x27meetings\x27 key\n"
  | .missingSubprojectsKey => "WARNING: missing \x27subprojects\x27 key\n"
  | .onlySigsCommittees n =>
      "ERROR: only sigs and committees can own code / have subprojects, found: "
        ++ toString n ++ " subprojects\n"
  | .processingSubproject name dir =>
      "\n>>>> Processing subproject " ++ name ++ " under " ++ dir ++ "\n"
  | .missingDescriptionKey => "WARNING: missing \x27description\x27 key\n"
  | .missingContactKey => "WARNING: missing \x27contact\x27 key\n"
  | .missingOwnersKey => "ERROR: missing \x27owners\x27 key\n"
  | .processingOwners dir name =>
      "\n>>>> Processing owners files for " ++ dir ++ "/" ++ name ++ "\n"
  | .noOwnersSub name => "ERROR: subproject " ++ name ++ " has no owners\n"
  | .ownerURLRegex url =>
      "ERROR: owner urls should match regexp " ++ regexRawGitHubURL
        ++ ", found: " ++ url ++ "\n"
  | .readOwnersError url err =>
      "ERROR: unable to read owners file at " ++ url ++ " url - " ++ err ++ "\n"
  | .parseOwnersError url err =>
      "ERROR: unable to parse owners file at " ++ url ++ " url - " ++ err ++ "\n"
  | .staleURL url code =>
      "WARNING: stale url " ++ url ++ " - http status code = " ++ toString code
        ++ " - %!s(<nil>)\n"
  | .labelMismatch label dir url =>
      "WARNING: file does not have a label that contains with " ++ label
        ++ ". Please ensure OWNERS file has labels reflecting " ++ dir ++ " - " ++ url ++ "\n"
  | .noLabels dir url =>
      "WARNING: file at url does not have any labels. Please ensure OWNERS file has labels reflecting "
        ++ dir ++ " - " ++ url ++ "\n"
  | .aliasOwners url =>
      "WARNING: file at url does not seem to have approvers/reviewers with the sig alias (defined in OWNER_ALIASES). Please consider adding a sig alias OWNER_ALIASES and add them to approvers/reviewers in this file - "
        ++ url ++ "\n"
  | .missingSlack => "WARNING: missing \x27slack\x27 in contact\n"
  | .missingMailingList => "WARNING: missing \x27mailing_list\x27 in contact\n"
  | .missingPrivateMailingList => "OPTIONAL: missing \x27private_mailing_list\x27 in contact\n"
  | .missingTeams => "OPTIONAL: missing \x27teams\x27 in contact\n"
  | .unreachableCharter link =>
      "WARNING: unable to reach url for \x27charter_link\x27 - " ++ link ++ "\n"
  | .missingCharterFile p =>
      "WARNING: missing file for \x27charter_link\x27 - " ++ p ++ "\n"
  | .missingStakeholderSigs => "WARNING: missing \x27stakeholder_sigs\x27 key\n"
  | .stakeholderNotFound s =>
      "WARNING: stakeholder_sigs entry \x27" ++ s ++ "\x27 not found (typo?)\n"
  | .onlyWgStakeholders => "ERROR: only \x27workinggroups\x27 may have stakeholder_sigs ()\n"
  | .missingChairs => "WARNING: missing \x27chairs\x27 key (in \x27leadership\x27 section)\n"
  | .considerMoreChairs =>
      "WARNING: please consider adding more folks in as \x27chairs\x27 (in \x27leadership\x27 section)\n"
  | .missingTechLeads => "WARNING: missing \x27tech_leads\x27 key (in \x27leadership\x27 section)\n"
  | .chairsAsTechLeads =>
      "WARNING: if chairs are serving as tech leads, please add them explicitly in \x27tech_leads\x27 key (in \x27leadership\x27 section)\n"
  | .personMissingName extra => "WARNING: missing \x27name\x27 key in " ++ extra ++ "\n"
  | .personMissingGithub extra name =>
      "WARNING: missing \x27github\x27 key in " ++ extra ++ " for " ++ name ++ "\n"
  | .personMissingCompany extra name =>
      "OPTIONAL: missing \x27company\x27 key in " ++ extra ++ " for " ++ name ++ "\n"

/-- render concatenates the printed bytes of a finding list. -/
def render (l : List Finding) : String :=
  String.join (l.map renderFinding)

/-- Out is the observable behaviour of a part_000 routine that may panic:
the findings printed before returning or panicking, and the panic message
when one occurred (Go nil-pointer dereferences abort the process). -/
abbrev Out := List Finding × Option String

/-- pureOut wraps a finding list as a non-panicking outcome. -/
def pureOut (l : List Finding) : Out :=
  (l, none)

/-- seqOut sequences two outcomes: when the first panics, the second never
runs; otherwise the printed output is concatenated. -/
def seqOut (a b : Out) : Out :=
  match a.2 with
  | some e => (a.1, some e)
  | none => (a.1 ++ b.1, b.2)

/-- runAll folds seqOut over a loop body, mirroring a Go for-range loop
whose body may panic. -/
def runAll (f : α → Out) : List α → Out
  | [] => ([], none)
  | x :: xs => seqOut (f x) (runAll f xs)

/-- auditPerson embeds part_000 auditPerson. -/
def auditPerson (extra : String) (person : Person) : List Finding :=
  (if person.name.length == 0 then [.personMissingName extra] else []) ++
  (if person.github.length == 0 then [.personMissingGithub extra person.name] else []) ++
  (if person.company.length == 0 then [.personMissingCompany extra person.name] else [])

/-- auditContact embeds part_000 auditContact. -/
def auditContact (contact : Contact) : List Finding :=
  (if contact.slack.length == 0 then [.missingSlack] else []) ++
  (if contact.mailingList.length == 0 then [.missingMailingList] else []) ++
  (if contact.privateMailingList.length == 0 then [.missingPrivateMailingList] else []) ++
  (if contact.githubTeams.length == 0 then [.missingTeams] else []) ++
  (match contact.liaison with
   | some p => auditPerson "contact/liaison" p
   | none => [])

/-- auditCharterLink embeds part_000 auditCharterLink: an http-prefixed
link is fetched once (transport error or non-200 status warns); otherwise
the link is resolved under pwd/dir and its absence warns. -/
def auditCharterLink (env : Env) (group : Group) : List Finding :=
  if strStartsWith group.charterLink "http" then
    match env.fetch group.charterLink with
    | none => [.unreachableCharter group.charterLink]
    | some resp =>
      if resp.statusCode != 200 then [.unreachableCharter group.charterLink] else []
  else
    let charterPath := pathJoin env.pwd (pathJoin group.dir group.charterLink)
    if env.fileNotExists charterPath then [.missingCharterFile charterPath] else []

/-- auditWorkingGroupStakeholders embeds part_000
auditWorkingGroupStakeholders: for working groups each stakeholder entry
is looked up by exact name among context.Sigs, otherwise a non-empty
stakeholder list is an error. -/
def auditWorkingGroupStakeholders (groupType : String) (group : Group)
    (context : Context) : List Finding :=
  if groupType == "wg" then
    if group.stakeholderSIGs.length == 0 then
      [.missingStakeholderSigs]
    else
      group.stakeholderSIGs.flatMap (fun stakeholder =>
        if context.sigs.any (fun g => g.name == stakeholder) then []
        else [.stakeholderNotFound stakeholder])
  else
    if group.stakeholderSIGs.length > 0 then [.onlyWgStakeholders] else []

/-- auditLeadership embeds part_000 auditLeadership, preserving the
nesting of the one-chair suggestion inside the zero-chairs branch. -/
def auditLeadership (group : Group) (groupType : String) : List Finding :=
  (if group.leadership.chairs.length == 0 then
    [.missingChairs] ++
    (if groupType == "sig" then
      (if group.leadership.chairs.length == 1 then [.considerMoreChairs] else [])
     else [])
   else []) ++
  (if group.leadership.technicalLeads.length == 0 then
    [.missingTechLeads] ++
    (if groupType == "sig" then [.chairsAsTechLeads] else [])
   else []) ++
  ((group.leadership.chairs ++ group.leadership.technicalLeads
      ++ group.leadership.emeritusLeads).flatMap (auditPerson "leadership"))

/-- auditOwnersInfo embeds part_000 auditOwnersInfo: the label-suffix
check guarded on a non-empty group label, the missing-labels warning, and
the approver/reviewer alias check by substring containment. -/
def auditOwnersInfo (group : Group) (info : OwnersInfo) (url : String) :
    List Finding :=
  (if info.labels.length > 0 then
    (if group.label.length > 0 then
      (if info.labels.any (fun label => strHasSuffix label group.label) then []
       else [.labelMismatch group.label group.dir url])
     else [])
   else [.noLabels group.dir url]) ++
  (let allOwners := info.approvers ++ info.reviewers ++ info.requiredReviewers
   if allOwners.any (fun item => strContains item group.label) then []
   else [.aliasOwners url])

/-- auditOwnersURL embeds one iteration of the URL loop of part_000
auditOwnersFiles.  A URL matching neither pattern is reported and skipped
before any fetch.  On err == nil and status 200 the body is read (a read
error is reported and the partial bytes are still parsed) and parsed; on
success the kubernetes/kubernetes substring test gates auditOwnersInfo.
Otherwise the else branch prints resp.StatusCode: when fetch returned a
transport error the Go response pointer is nil and that field access
panics. -/
def auditOwnersURL (env : Env) (group : Group) (url : String) : Out :=
  if !(reRawGitHubURL url) && !(reGitHubURL url) then
    pureOut [.ownerURLRegex url]
  else
    match env.fetch url with
    | some resp =>
      if resp.statusCode == 200 then
        pureOut (
          (match resp.readErr with
           | some e => [.readOwnersError url e]
           | none => []) ++
          (match env.parseOwners resp.body with
           | .error e => [.parseOwnersError url e]
           | .ok info =>
             if !(strContains url "kubernetes/kubernetes") then []
             else auditOwnersInfo group info url))
      else
        pureOut [.staleURL url resp.statusCode]
    | none =>
      ([], some "runtime error: invalid memory address or nil pointer dereference")

/-- auditOwnersFiles embeds part_000 auditOwnersFiles (the sync.Once
pattern compilation is a no-op in a pure embedding). -/
def auditOwnersFiles (env : Env) (group : Group) (subproject : Subproject) : Out :=
  seqOut
    (pureOut ([.processingOwners group.dir subproject.name] ++
      (if subproject.owners.length == 0 then [.noOwnersSub subproject.name] else [])))
    (runAll (auditOwnersURL env group) subproject.owners)

/-- auditSubProjectBody embeds one iteration of the subproject loop of
part_000 auditSubProject. -/
def auditSubProjectBody (env : Env) (group : Group) (subproject : Subproject) : Out :=
  seqOut
    (pureOut (
      [.processingSubproject subproject.name group.dir] ++
      (if subproject.name.length == 0 then [.missingNameKey] else []) ++
      (if subproject.description.length == 0 then [.missingDescriptionKey] else []) ++
      (match subproject.contact with
       | none => [.missingContactKey]
       | some c => auditContact c)))
    (seqOut
      (if subproject.owners.length == 0 then pureOut [.missingOwnersKey]
       else auditOwnersFiles env group subproject)
      (pureOut (if subproject.meetings.length == 0 then [.missingMeetingsKey] else [])))

/-- auditSubProject embeds part_000 auditSubProject. -/
def auditSubProject (env : Env) (group : Group) : Out :=
  runAll (auditSubProjectBody env group) group.subprojects

/-- auditGroup embeds part_000 auditGroup in source order: naming checks,
sig-only mission/charter checks, working-group stakeholders, leadership,
meetings, contact, the sig-only subprojects section, and the trailing
subprojects exclusivity error for every category other than sig and
committee. -/
def auditGroup (env : Env) (groupType : String) (group : Group)
    (context : Context) : Out :=
  seqOut
    (pureOut (
      (if group.dir.length == 0 then [.missingDirKey] else []) ++
      (if group.name.length == 0 then [.missingNameKey] else []) ++
      [.processingGroup groupType group.dir group.name] ++
      (if env.dirName group groupType != group.dir then
        [.expectedDirErr (env.dirName group groupType) group.dir] else []) ++
      (if env.labelName group groupType != group.label then
        [.expectedLabelErr (env.labelName group groupType) group.label] else []) ++
      (if groupType == "sig" then
        (if group.missionStatement.length == 0 then [.missingMissionStatement] else []) ++
        (if group.charterLink.length == 0 then [.missingCharterLink]
         else auditCharterLink env group)
       else []) ++
      (if groupType == "wg" then
        auditWorkingGroupStakeholders groupType group context
       else []) ++
      (if group.label.length == 0 then [.missingLabelKeys] else []) ++
      auditLeadership group groupType ++
      (if group.meetings.length == 0 then [.missingMeetingsKey] else []) ++
      auditContact group.contact))
    (seqOut
      (if groupType == "sig" then
        (if group.subprojects.length == 0 then pureOut [.missingSubprojectsKey]
         else auditSubProject env group)
       else pureOut [])
      (pureOut
        (if groupType != "committee" && groupType != "sig" then
          (if group.subprojects.length > 0 then
            [.onlySigsCommittees group.subprojects.length] else [])
         else [])))

end V1

namespace V2

/-- Finding enumerates the fmt.Printf diagnostic sites of
src/cmd/audit.go, one constructor per printf, carrying the formatted
arguments (persons are printed whole through the %v verb, so the person
findings carry the Person value). -/
inductive Finding where
  | runningScript (timeStr : String)
  | doneLine
  | missingDir (groupType name : String)
  | missingName (groupType dir : String)
  | processingGroup (groupType dir name : String)
  | missingMission (groupType dir : String)
  | missingCharter (groupType dir : String)
  | missingLabel (groupType dir : String)
  | missingMeetings (groupType dir : String)
  | missingSubprojects (groupType dir : String)
  | missingSubName (extra groupType dir : String)
  | missingSubDescription (extra groupType dir : String)
  | missingSubContact (extra groupType dir : String)
  | missingOwners (extra groupType dir : String)
  | missingSubMeetings (extra groupType dir : String)
  | missingSlack (groupType dir : String)
  | missingMailingList (groupType dir : String)
  | missingPrivateMailingList (groupType dir : String)
  | missingTeams (groupType dir : String)
  | unreachableCharterURL (link groupType dir : String)
  | missingCharterFile (path groupType dir : String)
  | missingStakeholderSigs (groupType dir : String)
  | stakeholderNotFound (entry groupType dir : String)
  | missingChairs (groupType dir : String)
  | considerMoreChairs (groupType dir : String)
  | missingTechLeads (groupType dir : String)
  | chairsAsTechLeads (groupType dir : String)
  | personMissingName (extra : String) (person : Person) (groupType dir : String)
  | personMissingGithub (extra : String) (person : Person) (groupType dir : String)
  | personMissingCompany (extra : String) (person : Person) (groupType dir : String)
deriving DecidableEq

/-- severity maps each printf site of audit.go to the prefix of the line
it prints; this variant prints WARNING uniformly for every finding. -/
def severity : Finding → Sev
  | .runningScript _ => .info
  | .doneLine => .info
  | .processingGroup _ _ _ => .info
  | _ => .warning

/-- renderPerson reproduces the %v rendering of a *utils.Person value. -/
def renderPerson (p : Person) : String :=
  "&\x7b" ++ p.name ++ " " ++ p.github ++ " " ++ p.company ++ "\x7d"

/-- renderFinding reproduces the exact bytes printed by the corresponding
fmt.Printf of audit.go. -/
def renderFinding : Finding → String
  | .runningScript t => "Running script : " ++ t ++ "\n"
  | .doneLine => "Done.\n"
  | .missingDir gt name =>
      "WARNING: missing \x27dir\x27 for a group under " ++ gt ++ "/" ++ name ++ "\n"
  | .missingName gt dir =>
      "WARNING: missing \x27name\x27 for a group under " ++ gt ++ "/" ++ dir ++ "\n"
  | .processingGroup gt dir name =>
      ">>>> Processing " ++ gt ++ " [" ++ dir ++ "/" ++ name ++ "]\n"
  | .missingMission gt dir =>
      "WARNING: missing \x27mission_statement\x27 for " ++ gt ++ "/" ++ dir ++ "\n"
  | .missingCharter gt dir =>
      "WARNING: missing \x27charter_link\x27 for " ++ gt ++ "/" ++ dir ++ "\n"
  | .missingLabel gt dir =>
      "WARNING: missing \x27label\x27 for " ++ gt ++ "/" ++ dir ++ "\n"
  | .missingMeetings gt dir =>
      "WARNING: missing \x27meetings\x27 for " ++ gt ++ "/" ++ dir ++ "\n"
  | .missingSubprojects gt dir =>
      "WARNING: missing \x27subprojects\x27 for a group under " ++ gt ++ "/" ++ dir ++ "\n"
  | .missingSubName extra gt dir =>
      "WARNING: missing name for subproject " ++ extra ++ " for a group under "
        ++ gt ++ "/" ++ dir ++ "\n"
  | .missingSubDescription extra gt dir =>
      "WARNING: missing description for subproject " ++ extra ++ " for a group under "
        ++ gt ++ "/" ++ dir ++ "\n"
  | .missingSubContact extra gt dir =>
      "WARNING: missing contact for subproject " ++ extra ++ " for a group under "
        ++ gt ++ "/" ++ dir ++ "\n"
  | .missingOwners extra gt dir =>
      "WARNING: missing owners for subproject " ++ extra ++ " for a group under "
        ++ gt ++ "/" ++ dir ++ "\n"
  | .missingSubMeetings extra gt dir =>
      "WARNING: missing meetings for subproject " ++ extra ++ " for a group under "
        ++ gt ++ "/" ++ dir ++ "\n"
  | .missingSlack gt dir =>
      "WARNING: missing \x27slack\x27 for " ++ gt ++ "/" ++ dir ++ " under contact\n"
  | .missingMailingList gt dir =>
      "WARNING: missing \x27mailing_list\x27 for " ++ gt ++ "/" ++ dir ++ " under contact\n"
  | .missingPrivateMailingList gt dir =>
      "WARNING: missing \x27private_mailing_list\x27 for " ++ gt ++ "/" ++ dir ++ " under contact\n"
  | .missingTeams gt dir =>
      "WARNING: missing \x27teams\x27 for " ++ gt ++ "/" ++ dir ++ " under contact\n"
  | .unreachableCharterURL link gt dir =>
      "WARNING: unable to reach url " ++ link ++ " for " ++ gt ++ "/" ++ dir ++ "\n"
  | .missingCharterFile p gt dir =>
      "WARNING: missing file " ++ p ++ " for " ++ gt ++ "/" ++ dir ++ "\n"
  | .missingStakeholderSigs gt dir =>
      "WARNING: missing \x27stakeholder_sigs\x27 for " ++ gt ++ "/" ++ dir ++ "\n"
  | .stakeholderNotFound s gt dir =>
      "WARNING: stakeholder_sigs entry \x27" ++ s ++ "\x27 not found for "
        ++ gt ++ "/" ++ dir ++ "\n"
  | .missingChairs gt dir =>
      "WARNING: missing \x27leadership/chairs\x27 for " ++ gt ++ "/" ++ dir ++ "\n"
  | .considerMoreChairs gt dir =>
      "WARNING: please consider adding more folks in \x27leadership/chairs\x27 for "
        ++ gt ++ "/" ++ dir ++ "\n"
  | .missingTechLeads gt dir =>
      "WARNING: missing \x27leadership/tech_leads\x27 for " ++ gt ++ "/" ++ dir ++ "\n"
  | .chairsAsTechLeads gt dir =>
      "WARNING: if chairs are serving as tech leads, please add them explicitly in \x27leadership/tech_leads\x27 for "
        ++ gt ++ "/" ++ dir ++ "\n"
  | .personMissingName extra p gt dir =>
      "WARNING: missing " ++ extra ++ " name for " ++ renderPerson p ++ " for "
        ++ gt ++ "/" ++ dir ++ "\n"
  | .personMissingGithub extra p gt dir =>
      "WARNING: missing " ++ extra ++ " github id for " ++ renderPerson p ++ " for "
        ++ gt ++ "/" ++ dir ++ "\n"
  | .personMissingCompany extra p gt dir =>
      "WARNING: missing " ++ extra ++ " company for " ++ renderPerson p ++ " for "
        ++ gt ++ "/" ++ dir ++ "\n"

/-- render concatenates the printed bytes of a finding list. -/
def render (l : List Finding) : String :=
  String.join (l.map renderFinding)

/-- auditPerson embeds audit.go auditPerson. -/
def auditPerson (group : Group) (groupType : String) (extra : String)
    (person : Person) : List Finding :=
  (if person.name.length == 0 then
    [.personMissingName extra person groupType group.dir] else []) ++
  (if person.github.length == 0 then
    [.personMissingGithub extra person groupType group.dir] else []) ++
  (if person.company.length == 0 then
    [.personMissingCompany extra person groupType group.dir] else [])

/-- auditContact embeds audit.go auditContact; this variant reports the
private mailing list and team list at WARNING severity. -/
def auditContact (contact : Contact) (groupType : String) (group : Group) :
    List Finding :=
  (if contact.slack.length == 0 then [.missingSlack groupType group.dir] else []) ++
  (if contact.mailingList.length == 0 then [.missingMailingList groupType group.dir] else []) ++
  (if contact.privateMailingList.length == 0 then
    [.missingPrivateMailingList groupType group.dir] else []) ++
  (if contact.githubTeams.length == 0 then [.missingTeams groupType group.dir] else []) ++
  (match contact.liaison with
   | some p => auditPerson group groupType "contact/liaison" p
   | none => [])

/-- auditCharterLink embeds audit.go auditCharterLink. -/
def auditCharterLink (env : Env) (groupType : String) (group : Group) :
    List Finding :=
  if strStartsWith group.charterLink "http" then
    match env.fetch group.charterLink with
    | none => [.unreachableCharterURL group.charterLink groupType group.dir]
    | some resp =>
      if resp.statusCode != 200 then
        [.unreachableCharterURL group.charterLink groupType group.dir]
      else []
  else
    let charterPath := pathJoin env.pwd (pathJoin group.dir group.charterLink)
    if env.fileNotExists charterPath then
      [.missingCharterFile charterPath groupType group.dir]
    else []

/-- auditWorkingGroupStakeholders embeds audit.go
auditWorkingGroupStakeholders (this variant has no non-working-group
branch; it is only invoked for the workinggroups category). -/
def auditWorkingGroupStakeholders (group : Group) (groupType : String)
    (context : Context) : List Finding :=
  if group.stakeholderSIGs.length == 0 then
    [.missingStakeholderSigs groupType group.dir]
  else
    group.stakeholderSIGs.flatMap (fun stakeholder =>
      if context.sigs.any (fun g => g.name == stakeholder) then []
      else [.stakeholderNotFound stakeholder groupType group.dir])

/-- auditLeadership embeds audit.go auditLeadership, preserving the
nesting of the one-chair suggestion inside the zero-chairs branch. -/
def auditLeadership (group : Group) (groupType : String) : List Finding :=
  (if group.leadership.chairs.length == 0 then
    [.missingChairs groupType group.dir] ++
    (if groupType == "sigs" then
      (if group.leadership.chairs.length == 1 then
        [.considerMoreChairs groupType group.dir] else [])
     else [])
   else []) ++
  (if group.leadership.technicalLeads.length == 0 then
    [.missingTechLeads groupType group.dir] ++
    (if groupType == "sigs" then [.chairsAsTechLeads groupType group.dir] else [])
   else []) ++
  ((group.leadership.chairs ++ group.leadership.technicalLeads
      ++ group.leadership.emeritusLeads).flatMap
    (auditPerson group groupType "leadership"))

/-- subExtra reproduces the extra tag computed at the top of the audit.go
subproject loop. -/
def subExtra (subproject : Subproject) : String :=
  "[" ++ subproject.name ++ "/" ++ subproject.description ++ "]"

/-- auditSubProjectBody embeds one iteration of the subproject loop of
audit.go auditSubProject; missing owners is only a WARNING here and no
owners-file fetching is performed at all. -/
def auditSubProjectBody (groupType : String) (group : Group)
    (subproject : Subproject) : List Finding :=
  (if subproject.name.length == 0 then
    [.missingSubName (subExtra subproject) groupType group.dir] else []) ++
  (if subproject.description.length == 0 then
    [.missingSubDescription (subExtra subproject) groupType group.dir] else []) ++
  (match subproject.contact with
   | none => [.missingSubContact (subExtra subproject) groupType group.dir]
   | some c => auditContact c groupType group) ++
  (if subproject.owners.length == 0 then
    [.missingOwners (subExtra subproject) groupType group.dir] else []) ++
  (if subproject.meetings.length == 0 then
    [.missingSubMeetings (subExtra subproject) groupType group.dir] else [])

/-- auditSubProject embeds audit.go auditSubProject. -/
def auditSubProject (group : Group) (groupType : String) : List Finding :=
  group.subprojects.flatMap (auditSubProjectBody groupType group)

/-- auditGroup embeds audit.go auditGroup in source order; every category
is treated alike (mission statement, charter and subprojects are checked
unconditionally). -/
def auditGroup (env : Env) (groupType : String) (group : Group)
    (context : Context) : List Finding :=
  (if group.dir.length == 0 then [.missingDir groupType group.name] else []) ++
  (if group.name.length == 0 then [.missingName groupType group.dir] else []) ++
  [.processingGroup groupType group.dir group.name] ++
  (if group.missionStatement.length == 0 then [.missingMission groupType group.dir] else []) ++
  (if group.charterLink.length == 0 then [.missingCharter groupType group.dir]
   else auditCharterLink env groupType group) ++
  (if groupType == "workinggroups" then
    auditWorkingGroupStakeholders group groupType context
   else []) ++
  (if group.label.length == 0 then [.missingLabel groupType group.dir] else []) ++
  auditLeadership group groupType ++
  (if group.meetings.length == 0 then [.missingMeetings groupType group.dir] else []) ++
  auditContact group.contact groupType group ++
  (if group.subprojects.length == 0 then [.missingSubprojects groupType group.dir]
   else auditSubProject group groupType)

/-- groupMap is the Go map literal built in audit.go Run, embedded as an
association list from category key to its group collection. -/
def groupMap (context : Context) : List (String × List Group) :=
  [("sigs", context.sigs),
   ("usergroups", context.userGroups),
   ("workinggroups", context.workingGroups),
   ("committees", context.committees)]

/-- categoryBlock is the output block one category key contributes to a
run: its groups audited in insertion order (keys absent from the map
contribute nothing). -/
def categoryBlock (env : Env) (context : Context) (groupType : String) :
    List Finding :=
  match (groupMap context).lookup groupType with
  | some groups => groups.flatMap (fun group => auditGroup env groupType group context)
  | none => []

/-- Run embeds the body of audit.go auditCmd.Run after the fatal
configuration steps (which the spec places out of scope): the timestamp
header, the range over the category map, and the final Done line.
timeStr is the formatted time.Now() value and order the iteration order
Go chooses for the map range (Go randomizes it; any permutation of the
four keys may occur). -/
def Run (env : Env) (timeStr : String) (order : List String)
    (context : Context) : List Finding :=
  [.runningScript timeStr] ++
  (order.flatMap (categoryBlock env context)) ++
  [.doneLine]

end V2

/-! Concrete fixtures used by counterexamples and witnesses. -/

/-- personA is a fully populated person, contributing no findings. -/
def personA : Person :=
  { name := "Alice", github := "alice", company := "ACME" }

/-- contactFull is a fully populated contact, contributing no findings. -/
def contactFull : Contact :=
  { slack := "#chan", mailingList := "list", privateMailingList := "priv",
    githubTeams := ["team"], liaison := none }

/-- envStub is a constant-response environment: every fetch is a transport
error, parsing fails, no file exists, and the expected dir and label
derivations agree with the stored values. -/
def envStub : Env :=
  { fetch := fun _ => none
    parseOwners := fun _ => .error "stub"
    fileNotExists := fun _ => true
    dirName := fun g _ => g.dir
    labelName := fun g _ => g.label
    pwd := "/pwd" }

/-- env404 answers every fetch with a 404 response. -/
def env404 : Env :=
  { envStub with fetch := fun _ => some { statusCode := 404, body := "", readErr := none } }

/-- groupBase is a fully populated group fixture with two chairs. -/
def groupBase : Group :=
  { dir := "sig-apps", name := "Apps", label := "apps",
    missionStatement := "mission", charterLink := "charter.md",
    leadership :=
      { chairs := [personA, personA], technicalLeads := [personA], emeritusLeads := [] },
    meetings := ["m"], contact := contactFull,
    subprojects := [], stakeholderSIGs := [] }

/-- groupOneChair is groupBase with exactly one chair. -/
def groupOneChair : Group :=
  { groupBase with leadership :=
      { chairs := [personA], technicalLeads := [personA], emeritusLeads := [] } }

/-- subNoOwners is a subproject with an empty owners list and every other
field populated. -/
def subNoOwners : Subproject :=
  { name := "kit", description := "d", contact := some contactFull,
    owners := [], meetings := ["m"] }

/-- groupCommittee is a committee-shaped group with no subprojects. -/
def groupCommittee : Group :=
  { groupBase with dir := "committee-steering", name := "Steering", label := "steering" }

/-- groupCommitteeSub is groupCommittee with one ownerless subproject. -/
def groupCommitteeSub : Group :=
  { groupCommittee with subprojects := [subNoOwners] }

/-- ctxEmpty is the empty context. -/
def ctxEmpty : Context :=
  { sigs := [], userGroups := [], workingGroups := [], committees := [] }

/-- groupSigApps is a sig whose display name is sig-apps. -/
def groupSigApps : Group :=
  { groupBase with name := "sig-apps" }

/-- ctxSigApps contains the single sig named sig-apps. -/
def ctxSigApps : Context :=
  { sigs := [groupSigApps], userGroups := [], workingGroups := [], committees := [] }

/-- groupWGStake is a working group declaring one known and one unknown
stakeholder sig. -/
def groupWGStake : Group :=
  { groupBase with stakeholderSIGs := ["sig-apps", "sig-nonexistent"] }

/-- groupStakeNonWG is a non-working-group group that declares a
stakeholder sig. -/
def groupStakeNonWG : Group :=
  { groupBase with stakeholderSIGs := ["sig-apps"] }

/-- ctxTwo holds one sig and one committee, for the run-order
counterexample. -/
def ctxTwo : Context :=
  { sigs := [groupBase], userGroups := [], workingGroups := [],
    committees := [groupCommittee] }

/-- orderA is one possible Go map iteration order over the four category
keys. -/
def orderA : List String :=
  ["sigs", "usergroups", "workinggroups", "committees"]

/-- orderB is another possible Go map iteration order over the same keys. -/
def orderB : List String :=
  ["committees", "workinggroups", "usergroups", "sigs"]

/-- urlRawK8s is the raw-content example URL of the spec. -/
def urlRawK8s : String :=
  "https://raw.githubusercontent.com/kubernetes/kubernetes/master/OWNERS"

/-- urlBlobK8s is the web-UI example URL of the spec. -/
def urlBlobK8s : String :=
  "https://github.com/kubernetes/kubernetes/blob/master/OWNERS"

/-- urlExample is the non-matching example URL of the spec. -/
def urlExample : String :=
  "https://example.com/OWNERS"

/-- urlExtraRepo points into the kubernetes/kubernetes-extra repository:
its repo capture differs from the primary repository, yet the full URL
contains kubernetes/kubernetes as a substring. -/
def urlExtraRepo : String :=
  "https://raw.githubusercontent.com/kubernetes/kubernetes-extra/master/OWNERS"

/-- infoNoLabels is a parsed owners file with no labels and one approver
alias containing sig-node. -/
def infoNoLabels : OwnersInfo :=
  { labels := [], approvers := ["sig-node-approvers"], reviewers := [],
    requiredReviewers := [] }

/-- groupSigNode is a sig labelled sig-node. -/
def groupSigNode : Group :=
  { groupBase with dir := "sig-node", name := "Node", label := "sig-node" }

/-- envOwners answers every fetch with a 200 response whose body parses to
infoNoLabels. -/
def envOwners : Env :=
  { envStub with
    fetch := fun _ => some { statusCode := 200, body := "body", readErr := none }
    parseOwners := fun _ => .ok infoNoLabels }

/-- groupNoLabel is a group with the empty label. -/
def groupNoLabel : Group :=
  { groupBase with label := "" }

/-- isSubprojectsFinding recognises the two findings the subprojects rule
of part_000 auditGroup can emit. -/
def isSubprojectsFinding : V1.Finding → Bool
  | .missingSubprojectsKey => true
  | .onlySigsCommittees _ => true
  | _ => false

/-! Helper lemmas. -/

/-- Every string contains the empty substring, as Go strings.Contains
does. -/
theorem strContains_empty (s : String) : strContains s "" = true := by
  unfold strContains
  cases s.toList with
  | nil => rfl
  | cons c cs => simp [List.tails, List.isPrefixOf]

/-- A loop that keeps an element exactly when a test fails collects the
images of the failing elements in order. -/
theorem flatMap_skip_filter {α β : Type} (p : α → Bool) (f : α → β) (l : List α) :
    (l.flatMap fun a => if p a then [] else [f a]) =
      (l.filter fun a => !(p a)).map f := by
  induction l with
  | nil => rfl
  | cons a l ih =>
    by_cases h : p a <;> simp [List.filter_cons, h, ih]

/-- part_000 auditPerson never reports a subprojects-rule finding. -/
theorem auditPerson_no_subfinding (extra : String) (p : Person) :
    ∀ f ∈ V1.auditPerson extra p, isSubprojectsFinding f = false := by
  intro f hf
  simp only [V1.auditPerson, List.mem_append] at hf
  rcases hf with (hf | hf) | hf <;> split at hf <;> simp_all [isSubprojectsFinding]

/-- part_000 auditContact never reports a subprojects-rule finding. -/
theorem auditContact_no_subfinding (c : Contact) :
    ∀ f ∈ V1.auditContact c, isSubprojectsFinding f = false := by
  intro f hf
  simp only [V1.auditContact, List.mem_append] at hf
  rcases hf with (((hf | hf) | hf) | hf) | hf
  · split at hf <;> simp_all [isSubprojectsFinding]
  · split at hf <;> simp_all [isSubprojectsFinding]
  · split at hf <;> simp_all [isSubprojectsFinding]
  · split at hf <;> simp_all [isSubprojectsFinding]
  · rcases hc : c.liaison with _ | p
    · simp [hc] at hf
    · rw [hc] at hf
      exact auditPerson_no_subfinding "contact/liaison" p f hf

/-- part_000 auditLeadership never reports a subprojects-rule finding. -/
theorem auditLeadership_no_subfinding (g : Group) (gt : String) :
    ∀ f ∈ V1.auditLeadership g gt, isSubprojectsFinding f = false := by
  intro f hf
  simp only [V1.auditLeadership, List.mem_append, List.mem_flatMap] at hf
  rcases hf with (hf | hf) | ⟨p, _, hp⟩
  · split at hf
    · simp only [List.mem_append] at hf
      rcases hf with hf | hf
      · simp_all [isSubprojectsFinding]
      · split at hf <;> simp_all [isSubprojectsFinding]
    · simp at hf
  · split at hf
    · simp only [List.mem_append] at hf
      rcases hf with hf | hf
      · simp_all [isSubprojectsFinding]
      · split at hf <;> simp_all [isSubprojectsFinding]
    · simp at hf
  · exact auditPerson_no_subfinding "leadership" p f hp

/-- Every finding of audit.go auditPerson is a WARNING. -/
theorem v2_auditPerson_warning (g : Group) (gt extra : String) (p : Person) :
    ∀ f ∈ V2.auditPerson g gt extra p, V2.severity f = .warning := by
  intro f hf
  simp only [V2.auditPerson, List.mem_append] at hf
  rcases hf with (hf | hf) | hf <;> split at hf <;> simp_all [V2.severity]

/-- Every finding of audit.go auditContact is a WARNING. -/
theorem v2_auditContact_warning (c : Contact) (gt : String) (g : Group) :
    ∀ f ∈ V2.auditContact c gt g, V2.severity f = .warning := by
  intro f hf
  simp only [V2.auditContact, List.mem_append] at hf
  rcases hf with (((hf | hf) | hf) | hf) | hf
  · split at hf <;> simp_all [V2.severity]
  · split at hf <;> simp_all [V2.severity]
  · split at hf <;> simp_all [V2.severity]
  · split at hf <;> simp_all [V2.severity]
  · rcases hc : c.liaison with _ | p
    · simp [hc] at hf
    · rw [hc] at hf
      exact v2_auditPerson_warning g gt "contact/liaison" p f hf

/-- Every finding of one audit.go subproject iteration is a WARNING. -/
theorem v2_auditSubProjectBody_warning (gt : String) (g : Group) (sp : Subproject) :
    ∀ f ∈ V2.auditSubProjectBody gt g sp, V2.severity f = .warning := by
  intro f hf
  simp only [V2.auditSubProjectBody, List.mem_append] at hf
  rcases hf with (((hf | hf) | hf) | hf) | hf
  · split at hf <;> simp_all [V2.severity]
  · split at hf <;> simp_all [V2.severity]
  · rcases hc : sp.contact with _ | c
    · simp_all [V2.severity]
    · rw [hc] at hf
      exact v2_auditContact_warning c gt g f hf
  · split at hf <;> simp_all [V2.severity]
  · split at hf <;> simp_all [V2.severity]

/-! Claim theorems. -/

/-- C1: in both variants the one-chair suggestion is nested inside the
zero-chairs branch of auditLeadership, so it is unreachable; a sig group
with exactly one (fully populated) chair yields no leadership findings at
all, not the two WARNINGs the claim describes. -/
theorem leadership_one_chair_yields_no_warnings :
    V1.auditLeadership groupOneChair "sig" = [] ∧
    (∀ (g : Group) (gt : String),
      V1.Finding.considerMoreChairs ∉ V1.auditLeadership g gt) ∧
    (∀ (g : Group) (gt gt' dir' : String),
      V2.Finding.considerMoreChairs gt' dir' ∉ V2.auditLeadership g gt) := by
  refine ⟨by decide, ?_, ?_⟩
  · intro g gt hf
    simp only [V1.auditLeadership, List.mem_append, List.mem_flatMap] at hf
    rcases hf with (hf | hf) | ⟨p, _, hp⟩
    · split at hf
      · simp only [List.mem_append] at hf
        rcases hf with hf | hf
        · simp_all
        · split at hf <;> simp_all
      · simp at hf
    · split at hf
      · simp only [List.mem_append] at hf
        rcases hf with hf | hf
        · simp_all
        · split at hf <;> simp_all
      · simp at hf
    · have := auditPerson_no_subfinding "leadership" p _ hp
      simp only [V1.auditPerson, List.mem_append] at hp
      rcases hp with (hp | hp) | hp <;> split at hp <;> simp_all
  · intro g gt gt' dir' hf
    simp only [V2.auditLeadership, List.mem_append, List.mem_flatMap] at hf
    rcases hf with (hf | hf) | ⟨p, _, hp⟩
    · split at hf
      · simp only [List.mem_append] at hf
        rcases hf with hf | hf
        · simp_all
        · split at hf <;> simp_all
      · simp at hf
    · split at hf
      · simp only [List.mem_append] at hf
        rcases hf with hf | hf
        · simp_all
        · split at hf <;> simp_all
      · simp at hf
    · simp only [V2.auditPerson, List.mem_append] at hp
      rcases hp with (hp | hp) | hp <;> split at hp <;> simp_all

/-- C2: for a matching owner URL, a transport error makes part_000
dereference the nil response to print its status code, so the audit
panics instead of warning; only a non-nil non-200 response produces the
single stale-URL WARNING and lets the loop continue. -/
theorem owners_url_fetch_failure (env : Env) (g : Group) (url : String)
    (hm : reRawGitHubURL url = true) :
    (env.fetch url = none →
      V1.auditOwnersURL env g url =
        ([], some "runtime error: invalid memory address or nil pointer dereference")) ∧
    (∀ resp : HTTPResponse, env.fetch url = some resp → resp.statusCode ≠ 200 →
      V1.auditOwnersURL env g url =
        ([V1.Finding.staleURL url resp.statusCode], none)) := by
  constructor
  · intro hf
    simp [V1.auditOwnersURL, hm, hf]
  · intro resp hf hs
    simp [V1.auditOwnersURL, hm, hf, V1.pureOut, hs]

/-- Witness for owners_url_fetch_failure: the raw kubernetes OWNERS URL
panics under the all-transport-errors stub and warns once under the
constant-404 stub. -/
theorem owners_url_fetch_failure_witness :
    V1.auditOwnersURL envStub groupBase urlRawK8s =
      ([], some "runtime error: invalid memory address or nil pointer dereference") ∧
    V1.auditOwnersURL env404 groupBase urlRawK8s =
      ([V1.Finding.staleURL urlRawK8s 404], none) :=
  ⟨(owners_url_fetch_failure envStub groupBase urlRawK8s (by decide)).1 rfl,
   (owners_url_fetch_failure env404 groupBase urlRawK8s (by decide)).2
     { statusCode := 404, body := "", readErr := none } rfl (by decide)⟩

/-- C3 counterexample: a committee group with an empty subprojects list
gets no subprojects WARNING, and a committee group with one ownerless
subproject is not delegated to subproject validation — its whole audit
output is just the processing header. -/
theorem committee_subprojects_not_audited :
    V1.Finding.missingSubprojectsKey ∉
      (V1.auditGroup envStub "committee" groupCommittee ctxEmpty).1 ∧
    (V1.auditGroup envStub "committee" groupCommitteeSub ctxEmpty).1 =
      [V1.Finding.processingGroup "committee" "committee-steering" "Steering"] := by
  decide

/-- C3 (amended): in part_000 auditGroup the sig category alone gets the
empty-subprojects WARNING and the delegation to subproject validation;
committees are merely exempt from the exclusivity ERROR (no warning, no
delegation); every category other than sig and committee gets an ERROR
naming the subproject count when subprojects are declared. -/
theorem audit_group_subprojects_rule (env : Env) (gt : String) (g : Group)
    (ctx : Context) :
    (gt ≠ "sig" → gt ≠ "committee" → g.subprojects ≠ [] →
      V1.Finding.onlySigsCommittees g.subprojects.length ∈
        (V1.auditGroup env gt g ctx).1) ∧
    (gt = "committee" →
      (∀ n, V1.Finding.onlySigsCommittees n ∉ (V1.auditGroup env gt g ctx).1) ∧
      V1.Finding.missingSubprojectsKey ∉ (V1.auditGroup env gt g ctx).1) ∧
    (gt = "sig" → g.subprojects = [] →
      V1.Finding.missingSubprojectsKey ∈ (V1.auditGroup env gt g ctx).1) := by
  refine ⟨?_, ?_, ?_⟩
  · intro h1 h2 h3
    have hs : (gt == "sig") = false := by simp [h1]
    have hc : (gt == "committee") = false := by simp [h2]
    have hl : 0 < g.subprojects.length := List.length_pos.mpr h3
    simp only [V1.auditGroup, V1.seqOut, V1.pureOut, hs, hc, Bool.false_eq_true,
      if_false, bne, Bool.not_false, Bool.and_self, if_true, hl, if_pos,
      List.append_nil, List.nil_append]
    simp [List.mem_append]
  · rintro rfl
    have hout : (V1.auditGroup env "committee" g ctx).1 =
        (if g.dir.length == 0 then [V1.Finding.missingDirKey] else []) ++
        (if g.name.length == 0 then [V1.Finding.missingNameKey] else []) ++
        [V1.Finding.processingGroup "committee" g.dir g.name] ++
        (if env.dirName g "committee" != g.dir then
          [V1.Finding.expectedDirErr (env.dirName g "committee") g.dir] else []) ++
        (if env.labelName g "committee" != g.label then
          [V1.Finding.expectedLabelErr (env.labelName g "committee") g.label] else []) ++
        (if g.label.length == 0 then [V1.Finding.missingLabelKeys] else []) ++
        V1.auditLeadership g "committee" ++
        (if g.meetings.length == 0 then [V1.Finding.missingMeetingsKey] else []) ++
        V1.auditContact g.contact := by
      simp [V1.auditGroup, V1.seqOut, V1.pureOut]
    constructor
    · intro n hn
      rw [hout] at hn
      simp only [List.mem_append] at hn
      rcases hn with ((((((((hn | hn) | hn) | hn) | hn) | hn) | hn) | hn) | hn)
      · split at hn <;> simp_all
      · split at hn <;> simp_all
      · simp_all
      · split at hn <;> simp_all
      · split at hn <;> simp_all
      · split at hn <;> simp_all
      · have := auditLeadership_no_subfinding g "committee" _ hn
        simp [isSubprojectsFinding] at this
      · split at hn <;> simp_all
      · have := auditContact_no_subfinding g.contact _ hn
        simp [isSubprojectsFinding] at this
    · intro hn
      rw [hout] at hn
      simp only [List.mem_append] at hn
      rcases hn with ((((((((hn | hn) | hn) | hn) | hn) | hn) | hn) | hn) | hn)
      · split at hn <;> simp_all
      · split at hn <;> simp_all
      · simp_all
      · split at hn <;> simp_all
      · split at hn <;> simp_all
      · split at hn <;> simp_all
      · have := auditLeadership_no_subfinding g "committee" _ hn
        simp [isSubprojectsFinding] at this
      · split at hn <;> simp_all
      · have := auditContact_no_subfinding g.contact _ hn
        simp [isSubprojectsFinding] at this
  · rintro rfl h
    simp [V1.auditGroup, V1.seqOut, V1.pureOut, h]

/-- Witness for audit_group_subprojects_rule at the three category
shapes: a usergroup-like category with one subproject, a committee, and a
sig with no subprojects. -/
theorem audit_group_subprojects_rule_witness :
    V1.Finding.onlySigsCommittees groupCommitteeSub.subprojects.length ∈
      (V1.auditGroup envStub "ug" groupCommitteeSub ctxEmpty).1 ∧
    V1.Finding.missingSubprojectsKey ∉
      (V1.auditGroup envStub "committee" groupCommittee ctxEmpty).1 ∧
    V1.Finding.missingSubprojectsKey ∈
      (V1.auditGroup envStub "sig" groupBase ctxEmpty).1 :=
  ⟨(audit_group_subprojects_rule envStub "ug" groupCommitteeSub ctxEmpty).1
      (by decide) (by decide) (by decide),
   ((audit_group_subprojects_rule envStub "committee" groupCommittee ctxEmpty).2.1
      rfl).2,
   (audit_group_subprojects_rule envStub "sig" groupBase ctxEmpty).2.2 rfl rfl⟩

/-- C4: part_000 auditWorkingGroupStakeholders treats a non-empty
stakeholder list of any non-working-group category as the single
exclusivity ERROR, and emits nothing for an empty list. -/
theorem stakeholders_exclusive_to_wg (gt : String) (g : Group) (ctx : Context)
    (h : gt ≠ "wg") :
    (g.stakeholderSIGs ≠ [] →
      V1.auditWorkingGroupStakeholders gt g ctx = [V1.Finding.onlyWgStakeholders] ∧
      V1.severity .onlyWgStakeholders = .error) ∧
    (g.stakeholderSIGs = [] →
      V1.auditWorkingGroupStakeholders gt g ctx = []) := by
  have hw : (gt == "wg") = false := by simp [h]
  constructor
  · intro hne
    have hl : 0 < g.stakeholderSIGs.length := List.length_pos.mpr hne
    refine ⟨?_, rfl⟩
    simp [V1.auditWorkingGroupStakeholders, hw, hl]
  · intro he
    simp [V1.auditWorkingGroupStakeholders, hw, he]

/-- Witness for stakeholders_exclusive_to_wg: a committee-category group
with one stakeholder entry errors, one with none is silent. -/
theorem stakeholders_exclusive_to_wg_witness :
    V1.auditWorkingGroupStakeholders "committee" groupStakeNonWG ctxEmpty =
      [V1.Finding.onlyWgStakeholders] ∧
    V1.auditWorkingGroupStakeholders "committee" groupBase ctxEmpty = [] :=
  ⟨((stakeholders_exclusive_to_wg "committee" groupStakeNonWG ctxEmpty
      (by decide)).1 (by decide)).1,
   (stakeholders_exclusive_to_wg "committee" groupBase ctxEmpty
      (by decide)).2 rfl⟩

/-- C5: an owner URL matching neither accepted pattern is reported with
the single regexp ERROR and skipped — the result is the same for every
environment, so no fetch is issued — and the three example URLs behave as
the spec states. -/
theorem owner_url_shape_check :
    (∀ (env : Env) (g : Group) (url : String),
      reRawGitHubURL url = false → reGitHubURL url = false →
      V1.auditOwnersURL env g url = ([V1.Finding.ownerURLRegex url], none)) ∧
    reRawGitHubURL urlRawK8s = true ∧
    reGitHubURL urlBlobK8s = true ∧
    reRawGitHubURL urlExample = false ∧
    reGitHubURL urlExample = false := by
  refine ⟨?_, by decide, by decide, by decide, by decide⟩
  intro env g url h1 h2
  simp [V1.auditOwnersURL, h1, h2, V1.pureOut]

/-- Witness for owner_url_shape_check: the example.com URL is rejected
without any fetch under the transport-error stub. -/
theorem owner_url_shape_check_witness :
    V1.auditOwnersURL envStub groupBase urlExample =
      ([V1.Finding.ownerURLRegex urlExample], none) :=
  owner_url_shape_check.1 envStub groupBase urlExample (by decide) (by decide)

/-- C6: for an ownerless subproject the part_000 variant emits the
missing-owners finding at ERROR severity while the audit.go variant emits
it (and every other subproject finding) at WARNING severity, and the two
variants render different bytes on the same input. -/
theorem variants_disagree_on_missing_owners (env : Env) (gt : String)
    (g : Group) (sp : Subproject) (h : sp.owners = []) :
    (V1.Finding.missingOwnersKey ∈ (V1.auditSubProjectBody env g sp).1 ∧
      V1.severity .missingOwnersKey = .error) ∧
    (V2.Finding.missingOwners (V2.subExtra sp) gt g.dir ∈
        V2.auditSubProjectBody gt g sp ∧
      (∀ f ∈ V2.auditSubProjectBody gt g sp, V2.severity f = .warning)) ∧
    V1.render (V1.auditSubProjectBody envStub groupBase subNoOwners).1 ≠
      V2.render (V2.auditSubProjectBody "sigs" groupBase subNoOwners) := by
  refine ⟨⟨?_, rfl⟩, ⟨?_, v2_auditSubProjectBody_warning gt g sp⟩, by decide⟩
  · simp [V1.auditSubProjectBody, V1.seqOut, V1.pureOut, h, List.mem_append]
  · simp [V2.auditSubProjectBody, h, List.mem_append]

/-- Witness for variants_disagree_on_missing_owners at the concrete
ownerless subproject fixture. -/
theorem variants_disagree_on_missing_owners_witness :
    V1.Finding.missingOwnersKey ∈
      (V1.auditSubProjectBody envStub groupBase subNoOwners).1 ∧
    V2.Finding.missingOwners (V2.subExtra subNoOwners) "sigs" groupBase.dir ∈
      V2.auditSubProjectBody "sigs" groupBase subNoOwners :=
  ⟨((variants_disagree_on_missing_owners envStub "sigs" groupBase subNoOwners
      rfl).1).1,
   ((variants_disagree_on_missing_owners envStub "sigs" groupBase subNoOwners
      rfl).2).1.1⟩

/-- C7 counterexample: two legitimate Go map iteration orders over the
category map are permutations of each other, yet the rendered run output
differs byte-for-byte on the same tree with the same constant network
stub and the same timestamp — so two runs need not be byte-identical. -/
theorem run_output_depends_on_map_order :
    orderA.Perm orderB ∧
    V2.render (V2.Run envStub "t" orderA ctxTwo) ≠
      V2.render (V2.Run envStub "t" orderB ctxTwo) := by
  constructor
  · decide
  · decide

/-- C7 (amended): for a fixed map iteration order and timestamp the run
output is the deterministic concatenation of the header, the per-category
blocks in iteration order, and the Done line; each category block audits
its groups in insertion order; permuting the iteration order permutes the
category blocks. -/
theorem run_deterministic_for_fixed_order (env : Env) (ctx : Context)
    (t : String) (o₁ o₂ : List String) (h : o₁.Perm o₂) :
    V2.Run env t o₁ ctx =
      [V2.Finding.runningScript t] ++ o₁.flatMap (V2.categoryBlock env ctx) ++
        [V2.Finding.doneLine] ∧
    (o₁.map (V2.categoryBlock env ctx)).Perm
      (o₂.map (V2.categoryBlock env ctx)) ∧
    V2.categoryBlock env ctx "sigs" =
      ctx.sigs.flatMap (fun g => V2.auditGroup env "sigs" g ctx) ∧
    V2.categoryBlock env ctx "usergroups" =
      ctx.userGroups.flatMap (fun g => V2.auditGroup env "usergroups" g ctx) ∧
    V2.categoryBlock env ctx "workinggroups" =
      ctx.workingGroups.flatMap (fun g => V2.auditGroup env "workinggroups" g ctx) ∧
    V2.categoryBlock env ctx "committees" =
      ctx.committees.flatMap (fun g => V2.auditGroup env "committees" g ctx) :=
  ⟨rfl, h.map _, rfl, rfl, rfl, rfl⟩

/-- Witness for run_deterministic_for_fixed_order at the two concrete
orders over the two-group tree. -/
theorem run_deterministic_for_fixed_order_witness :
    (orderA.map (V2.categoryBlock envStub ctxTwo)).Perm
      (orderB.map (V2.categoryBlock envStub ctxTwo)) :=
  (run_deterministic_for_fixed_order envStub ctxTwo "t" orderA orderB
    (by decide)).2.1

/-- C8: for a working group with a non-empty stakeholder list the
stakeholder check emits exactly one WARNING per entry with no exact name
match among the sigs, in order; the result depends on the context only
through its sigs collection; and the spec example yields exactly the one
WARNING for sig-nonexistent. -/
theorem wg_stakeholder_lookup (g : Group) (ctx : Context)
    (h : g.stakeholderSIGs ≠ []) :
    V1.auditWorkingGroupStakeholders "wg" g ctx =
      (g.stakeholderSIGs.filter
        (fun s => !(ctx.sigs.any (fun gr => gr.name == s)))).map
        V1.Finding.stakeholderNotFound ∧
    (∀ ctx' : Context, ctx'.sigs = ctx.sigs →
      V1.auditWorkingGroupStakeholders "wg" g ctx' =
        V1.auditWorkingGroupStakeholders "wg" g ctx) ∧
    V1.auditWorkingGroupStakeholders "wg" groupWGStake ctxSigApps =
      [V1.Finding.stakeholderNotFound "sig-nonexistent"] := by
  have hl : (g.stakeholderSIGs.length == 0) = false := by
    simp [List.length_eq_zero]
    exact h
  refine ⟨?_, ?_, by decide⟩
  · simp only [V1.auditWorkingGroupStakeholders, hl, beq_self_eq_true, if_true,
      Bool.false_eq_true, if_false]
    exact flatMap_skip_filter _ _ _
  · intro ctx' h'
    simp only [V1.auditWorkingGroupStakeholders, h']

/-- Witness for wg_stakeholder_lookup at the spec example fixture. -/
theorem wg_stakeholder_lookup_witness :
    V1.auditWorkingGroupStakeholders "wg" groupWGStake ctxSigApps =
      (groupWGStake.stakeholderSIGs.filter
        (fun s => !(ctxSigApps.sigs.any (fun gr => gr.name == s)))).map
        V1.Finding.stakeholderNotFound :=
  (wg_stakeholder_lookup groupWGStake ctxSigApps (by decide)).1

/-- C9 counterexample: the gate before the label cross-checks is a
substring test on the whole URL, not a test of the URL's repository: a
URL of the kubernetes/kubernetes-extra repository (repo capture
kubernetes-extra, not the primary repository) still reaches
auditOwnersInfo and emits a label-related WARNING. -/
theorem nonprimary_repo_still_policed :
    rawGitHubOrgRepo urlExtraRepo = some ("kubernetes", "kubernetes-extra") ∧
    ("kubernetes", "kubernetes-extra") ≠
      (("kubernetes", "kubernetes") : String × String) ∧
    strContains urlExtraRepo "kubernetes/kubernetes" = true ∧
    (V1.auditOwnersURL envOwners groupSigNode urlExtraRepo).1 =
      [V1.Finding.noLabels "sig-node" urlExtraRepo] ∧
    V1.severity (.noLabels "sig-node" urlExtraRepo) = .warning := by
  decide

/-- C9 (amended): after a successful fetch and parse of a matching owner
URL, the label and approver/reviewer cross-checks run if and only if the
URL string contains kubernetes/kubernetes as a substring; otherwise the
URL contributes nothing further. -/
theorem owners_crosscheck_substring_gate (env : Env) (g : Group)
    (url : String) (resp : HTTPResponse) (info : OwnersInfo)
    (hm : reRawGitHubURL url = true) (hf : env.fetch url = some resp)
    (hs : resp.statusCode = 200) (hr : resp.readErr = none)
    (hp : env.parseOwners resp.body = .ok info) :
    V1.auditOwnersURL env g url =
      ((if strContains url "kubernetes/kubernetes"
        then V1.auditOwnersInfo g info url else []), none) := by
  cases hc : strContains url "kubernetes/kubernetes" <;>
    simp [V1.auditOwnersURL, hm, hf, hs, hr, hp, hc, V1.pureOut]

/-- Witness for owners_crosscheck_substring_gate at the
kubernetes/kubernetes-extra URL under the constant-200 stub. -/
theorem owners_crosscheck_substring_gate_witness :
    V1.auditOwnersURL envOwners groupSigNode urlExtraRepo =
      ((if strContains urlExtraRepo "kubernetes/kubernetes"
        then V1.auditOwnersInfo groupSigNode infoNoLabels urlExtraRepo
        else []), none) :=
  owners_crosscheck_substring_gate envOwners groupSigNode urlExtraRepo
    { statusCode := 200, body := "body", readErr := none } infoNoLabels
    (by decide) rfl rfl rfl rfl

/-- C10: with an empty group label the label-suffix WARNING is never
emitted (its guard needs a non-empty label), the missing-labels WARNING
still fires exactly when the file declares no labels, and the alias
WARNING fires exactly when approvers, reviewers and required reviewers
are all empty, because every string contains the empty substring. -/
theorem owners_info_empty_label (g : Group) (info : OwnersInfo)
    (url : String) (h : g.label = "") :
    V1.auditOwnersInfo g info url =
      (if info.labels.length == 0 then [V1.Finding.noLabels g.dir url] else []) ++
      (if (info.approvers ++ info.reviewers ++ info.requiredReviewers).length == 0
       then [V1.Finding.aliasOwners url] else []) := by
  have e1 : (if info.labels.length > 0 then
        (if g.label.length > 0 then
          (if info.labels.any (fun label => strHasSuffix label g.label) then []
           else [V1.Finding.labelMismatch g.label g.dir url])
         else [])
       else [V1.Finding.noLabels g.dir url]) =
      (if info.labels.length == 0 then [V1.Finding.noLabels g.dir url] else []) := by
    cases info.labels with
    | nil => simp
    | cons a l => simp [h]
  have e2 : (if (info.approvers ++ info.reviewers ++ info.requiredReviewers).any
          (fun item => strContains item g.label) then []
       else [V1.Finding.aliasOwners url]) =
      (if (info.approvers ++ info.reviewers ++ info.requiredReviewers).length == 0
       then [V1.Finding.aliasOwners url] else []) := by
    cases hA : info.approvers ++ info.reviewers ++ info.requiredReviewers with
    | nil => simp
    | cons a l => simp [h, strContains_empty]
  simp only [V1.auditOwnersInfo]
  rw [e1, e2]

/-- Witness for owners_info_empty_label at the empty-label fixture. -/
theorem owners_info_empty_label_witness :
    V1.auditOwnersInfo groupNoLabel infoNoLabels "u" =
      (if infoNoLabels.labels.length == 0
       then [V1.Finding.noLabels groupNoLabel.dir "u"] else []) ++
      (if (infoNoLabels.approvers ++ infoNoLabels.reviewers ++
            infoNoLabels.requiredReviewers).length == 0
       then [V1.Finding.aliasOwners "u"] else []) :=
  owners_info_empty_label groupNoLabel infoNoLabels "u" rfl

/-- Witness for leadership_one_chair_yields_no_warnings at the one-chair
sig fixture. -/
theorem leadership_one_chair_yields_no_warnings_witness :
    V1.Finding.considerMoreChairs ∉ V1.auditLeadership groupOneChair "sig" :=
  leadership_one_chair_yields_no_warnings.2.1 groupOneChair "sig"
